import Mathlib

/-!
Verification development for the Tugas-UAS exam-authoring API routes.

The two HTTP handlers (`src/app/api/extract-text/route.ts` and
`src/app/api/generate-questions/route.ts`) are shallowly embedded here.
Strings are modelled as `List Char`; JavaScript's `undefined` is modelled
with `Option`; thrown exceptions become `Except`/explicit error results;
the outcomes of outbound network calls and of the external PDF/DOCX
extraction libraries are supplied as oracle parameters.
-/

set_option maxRecDepth 4000

/-- Lowercase one character, modelling JavaScript `toLowerCase` on ASCII. -/
def lowerChar (c : Char) : Char :=
  if 'A' ≤ c ∧ c ≤ 'Z' then Char.ofNat (c.toNat + 32) else c

/-- Lowercase a string, modelling JavaScript `String.prototype.toLowerCase`. -/
def toLowerL (cs : List Char) : List Char := cs.map lowerChar

/-- Uppercase one character, modelling JavaScript `toUpperCase` on ASCII. -/
def upperChar (c : Char) : Char :=
  if 'a' ≤ c ∧ c ≤ 'z' then Char.ofNat (c.toNat - 32) else c

/-- Uppercase a string, modelling JavaScript `String.prototype.toUpperCase`. -/
def toUpperL (cs : List Char) : List Char := cs.map upperChar

/-- Whitespace characters recognised by the model of JavaScript `trim`. -/
def isWsChar (c : Char) : Bool := c = ' ' ∨ c = '\n' ∨ c = '\t' ∨ c = '\r'

/-- Model of JavaScript `String.prototype.trim`: strip whitespace at both ends. -/
def trimL (cs : List Char) : List Char :=
  ((cs.dropWhile isWsChar).reverse.dropWhile isWsChar).reverse

/-- Index of the last occurrence of `c`, modelling JavaScript `lastIndexOf`
    (`none` corresponds to the JavaScript result `-1`). -/
def lastIndexOf (c : Char) (cs : List Char) : Option Nat :=
  (cs.reverse.findIdx? (fun d => d = c)).map (fun i => cs.length - 1 - i)

/-! ## extract-text route: file-type validation -/

/-- `validExtensions` from `isValidFileType` in `extract-text/route.ts`. -/
def validExtensions : List (List Char) := [".pdf".data, ".docx".data, ".txt".data]

/-- `validMimeTypes` from `isValidFileType` in `extract-text/route.ts`. -/
def validMimeTypes : List (List Char) :=
  ["application/pdf".data,
   "application/vnd.openxmlformats-officedocument.wordprocessingml.document".data,
   "text/plain".data]

/-- The extension substring `filename.toLowerCase().substring(filename.lastIndexOf('.'))`.
    When there is no dot, JavaScript `substring(-1)` clamps to `0` and yields the
    whole (lowercased) string. -/
def extOf (filename : List Char) : List Char :=
  match lastIndexOf '.' filename with
  | some i => (toLowerL filename).drop i
  | none => toLowerL filename

/-- `isValidFileType` from `extract-text/route.ts`: the extension must be a member
    of `validExtensions` and the declared MIME type a member of `validMimeTypes`;
    the two memberships are checked independently of each other. -/
def isValidFileType (filename mime : List Char) : Bool :=
  validExtensions.contains (extOf filename) && validMimeTypes.contains mime

/-- The dispatch tag `file.name.toLowerCase().substring(file.name.lastIndexOf('.') + 1)`.
    When there is no dot, JavaScript `substring(0)` yields the whole lowercased name. -/
def fileTypeOf (filename : List Char) : List Char :=
  match lastIndexOf '.' filename with
  | some i => (toLowerL filename).drop (i + 1)
  | none => toLowerL filename

/-! ## extract-text route: POST handler -/

/-- An uploaded file as the handler sees it: name, declared MIME type, byte size,
    and (for `.txt` files) its UTF-8 decoded content. -/
structure UploadedFile where
  name : List Char
  mimeType : List Char
  size : Nat
  content : List Char

/-- Which error branch of the extract-text handler produced a response. -/
inductive ExtractErrKind where
  | noFile
  | tooLarge
  | badType
  | emptyExtraction
  | extractFailed
  deriving DecidableEq, Repr

/-- Result of the extract-text POST handler: an error response with its HTTP
    status, or the success payload `{ text, filename, fileType }`. -/
inductive ExtractResult where
  | err (status : Nat) (kind : ExtractErrKind)
  | ok (text : List Char) (filename : List Char) (fileType : List Char)
  deriving DecidableEq, Repr

/-- The `switch (fileType)` dispatch in the extract-text handler. The PDF and
    DOCX extraction libraries are external, so their outcomes are oracle
    parameters; `.txt` decodes the buffer directly; any other tag throws. -/
def dispatchExtract (f : UploadedFile) (pdfRes docxRes : Except Unit (List Char)) :
    Except Unit (List Char) :=
  let ft := fileTypeOf f.name
  if ft = "pdf".data then pdfRes
  else if ft = "docx".data then docxRes
  else if ft = "txt".data then Except.ok f.content
  else Except.error ()

/-- The POST handler of `extract-text/route.ts`: missing-file check, 10 MiB size
    check, file-type check, extraction dispatch, then the empty-extraction check
    `!extractedText || extractedText.trim().length < 10`. -/
def extractPOST (file? : Option UploadedFile) (pdfRes docxRes : Except Unit (List Char)) :
    ExtractResult :=
  match file? with
  | none => .err 400 .noFile
  | some f =>
    if f.size > 10 * 1024 * 1024 then .err 400 .tooLarge
    else if ¬ (isValidFileType f.name f.mimeType = true) then .err 400 .badType
    else
      match dispatchExtract f pdfRes docxRes with
      | Except.error _ => .err 500 .extractFailed
      | Except.ok text =>
        if text = [] ∨ (trimL text).length < 10 then .err 400 .emptyExtraction
        else .ok text f.name (toUpperL (fileTypeOf f.name))

/-! ## Model of JavaScript JSON.parse

`parseAIResponse` in `generate-questions/route.ts` delegates JSON decoding to
the platform's `JSON.parse`. That builtin is external code, so it is modelled
here by a recursive-descent parser over a core JSON grammar (objects, arrays,
strings without escape sequences, integer numbers, `true`/`false`/`null`,
with surrounding whitespace). -/

/-- Skip leading JSON whitespace. -/
def skipWsL : List Char → List Char
  | [] => []
  | c :: cs => if isWsChar c then skipWsL cs else c :: cs

/-- JSON value in the model of `JSON.parse`. -/
inductive Json where
  | null
  | bool (b : Bool)
  | num (n : Int)
  | str (s : List Char)
  | arr (xs : List Json)
  | obj (kvs : List (List Char × Json))
  deriving Repr

/-- Parse the body of a JSON string literal after its opening quote: everything
    up to the next double quote. -/
def parseStrBody : List Char → Option (List Char × List Char)
  | [] => none
  | c :: rest =>
    if c = '"' then some ([], rest)
    else (parseStrBody rest).map (fun p => (c :: p.1, p.2))

/-- Parse an optionally signed run of decimal digits. -/
def parseNum (cs : List Char) : Option (Int × List Char) :=
  let neg := cs.head? = some '-'
  let cs1 := if neg then cs.tail else cs
  let ds := cs1.takeWhile (fun c => c.isDigit)
  if ds = [] then none
  else
    let n : Nat := ds.foldl (fun a c => a * 10 + (c.toNat - 48)) 0
    some (if neg then -(n : Int) else (n : Int), cs1.dropWhile (fun c => c.isDigit))

mutual

/-- Parse one JSON value, returning it with the unconsumed suffix; the fuel
    bounds nesting depth. -/
def parseVal : Nat → List Char → Option (Json × List Char)
  | 0, _ => none
  | n + 1, cs =>
    match skipWsL cs with
    | [] => none
    | c :: rest =>
      if c = '"' then (parseStrBody rest).map (fun p => (Json.str p.1, p.2))
      else if c = '{' then
        match skipWsL rest with
        | '}' :: r2 => some (Json.obj [], r2)
        | r2 => (parseMembers n r2).map (fun p => (Json.obj p.1, p.2))
      else if c = '[' then
        match skipWsL rest with
        | ']' :: r2 => some (Json.arr [], r2)
        | r2 => (parseItems n r2).map (fun p => (Json.arr p.1, p.2))
      else if c = 't' then
        match rest with
        | 'r' :: 'u' :: 'e' :: r2 => some (Json.bool true, r2)
        | _ => none
      else if c = 'f' then
        match rest with
        | 'a' :: 'l' :: 's' :: 'e' :: r2 => some (Json.bool false, r2)
        | _ => none
      else if c = 'n' then
        match rest with
        | 'u' :: 'l' :: 'l' :: r2 => some (Json.null, r2)
        | _ => none
      else if c.isDigit ∨ c = '-' then
        (parseNum (c :: rest)).map (fun p => (Json.num p.1, p.2))
      else none

/-- Parse the members of a JSON object after its opening brace (at least one
    member; the empty object is handled in `parseVal`). -/
def parseMembers : Nat → List Char → Option (List (List Char × Json) × List Char)
  | 0, _ => none
  | n + 1, cs =>
    match skipWsL cs with
    | '"' :: rest =>
      match parseStrBody rest with
      | none => none
      | some (key, r2) =>
        match skipWsL r2 with
        | ':' :: r3 =>
          match parseVal n r3 with
          | none => none
          | some (v, r4) =>
            match skipWsL r4 with
            | ',' :: r5 => (parseMembers n r5).map (fun p => ((key, v) :: p.1, p.2))
            | '}' :: r5 => some ([(key, v)], r5)
            | _ => none
        | _ => none
    | _ => none

/-- Parse the items of a JSON array after its opening bracket (at least one
    item; the empty array is handled in `parseVal`). -/
def parseItems : Nat → List Char → Option (List Json × List Char)
  | 0, _ => none
  | n + 1, cs =>
    match parseVal n cs with
    | none => none
    | some (v, r1) =>
      match skipWsL r1 with
      | ',' :: r2 => (parseItems n r2).map (fun p => (v :: p.1, p.2))
      | ']' :: r2 => some ([v], r2)
      | _ => none

end

/-- Model of `JSON.parse`: parse one value with enough fuel for any nesting the
    input can express, then require only whitespace to remain. -/
def jsonParse (cs : List Char) : Option Json :=
  match parseVal (cs.length + 1) cs with
  | some (j, rest) => if skipWsL rest = [] then some j else none
  | none => none

/-! ## generate-questions route: response parsing -/

/-- The span matched by the regex `\x7b[\s\S]*\x7d` used in `parseAIResponse`:
    from the first opening brace to the last closing brace, provided the latter
    comes after the former; otherwise there is no match. -/
def greedySpan (r : List Char) : Option (List Char) :=
  match r.findIdx? (fun c => c = '{'), lastIndexOf '}' r with
  | some i, some j => if i < j then some ((r.drop i).take (j - i + 1)) else none
  | _, _ => none

/-- `parseAIResponse` from `generate-questions/route.ts`: first try to parse
    the whole reply as JSON; on failure extract the greedy first-brace to
    last-brace span and parse that; if both fail (or there is no such span),
    throw. -/
def parseAIResponse (r : List Char) : Except Unit Json :=
  match jsonParse r with
  | some j => Except.ok j
  | none =>
    match greedySpan r with
    | some span =>
      match jsonParse span with
      | some j => Except.ok j
      | none => Except.error ()
    | none => Except.error ()

/-! ## generate-questions route: request body and prompt builder -/

/-- The parsed request body of `POST /generate-questions`; `none` fields model
    JavaScript `undefined`. -/
structure GenBody where
  material : Option (List Char)
  questionType : Option (List Char)
  questionCount : Option Int
  difficulty : Option (List Char)

/-- `getQuestionTypeLabel` from `generate-questions/route.ts`. -/
def getQuestionTypeLabel (t : List Char) : List Char :=
  if t = "multiple-choice".data then "pilihan ganda".data
  else if t = "fill-blank".data then "isian singkat".data
  else if t = "true-false".data then "benar/salah".data
  else if t = "essay".data then "esai".data
  else "umum".data

/-- The per-type JSON schema example appended by `createPrompt`; the `switch`
    has no default case, so an unknown type contributes nothing. -/
def schemaFor (t : List Char) : List Char :=
  if t = "multiple-choice".data then
    "\x7b\n  \"questions\": [\n    \x7b\n      \"question\": \"pertanyaan\",\n      \"options\": [\"opsi A\", \"opsi B\", \"opsi C\", \"opsi D\"],\n      \"correctAnswer\": \"opsi yang benar\",\n      \"explanation\": \"penjelasan singkat\"\n    \x7d\n  ]\n\x7d".data
  else if t = "fill-blank".data then
    "\x7b\n  \"questions\": [\n    \x7b\n      \"question\": \"pertanyaan dengan bagian kosong ___\",\n      \"correctAnswer\": \"jawaban yang tepat\",\n      \"explanation\": \"penjelasan singkat\"\n    \x7d\n  ]\n\x7d".data
  else if t = "true-false".data then
    "\x7b\n  \"questions\": [\n    \x7b\n      \"question\": \"pernyataan yang harus dinilai benar/salah\",\n      \"correctAnswer\": \"benar\" atau \"salah\",\n      \"explanation\": \"penjelasan singkat\"\n    \x7d\n  ]\n\x7d".data
  else if t = "essay".data then
    "\x7b\n  \"questions\": [\n    \x7b\n      \"question\": \"pertanyaan esai yang memerlukan jawaban panjang\",\n      \"explanation\": \"petunjuk atau kriteria penilaian\"\n    \x7d\n  ]\n\x7d".data
  else []

/-- `createPrompt` from `generate-questions/route.ts`: preamble naming count,
    type label and difficulty, the material verbatim, the per-type schema
    example, and the closing JSON-only instruction. The destructuring default
    `difficulty = 'medium'` applies only when the field is absent; the other
    fields are present whenever the handler calls this (JavaScript would
    interpolate the text `undefined` otherwise, which the model mirrors). -/
def createPrompt (b : GenBody) : List Char :=
  let material := b.material.getD "undefined".data
  let qt := b.questionType.getD "undefined".data
  let qc := match b.questionCount with
    | some n => (toString n).data
    | none => "undefined".data
  let difficulty := b.difficulty.getD "medium".data
  "Berdasarkan materi pembelajaran berikut, buat ".data ++ qc ++ " soal ".data ++
    getQuestionTypeLabel qt ++ " dengan tingkat kesulitan ".data ++ difficulty ++
    ".\n\n".data ++
    "Materi:\n".data ++ material ++ "\n\n".data ++
    "Buat soal dalam format JSON yang valid dengan struktur berikut:\n".data ++
    schemaFor qt ++
    "\n\nPastikan output adalah JSON yang valid dan bisa di-parse. Jangan tambahkan teks lain di luar JSON.".data

/-! ## generate-questions route: fallback question generator -/

/-- Word characters of the JavaScript regex word-boundary class `\w`
    (`[A-Za-z0-9_]`). -/
def isWordChar (c : Char) : Bool :=
  ('a' ≤ c ∧ c ≤ 'z') ∨ ('0' ≤ c ∧ c ≤ '9') ∨ c = '_' ∨ ('A' ≤ c ∧ c ≤ 'Z')

/-- Split a string into its maximal runs of word characters; `acc` is the
    current run, reversed. -/
def tokenizeAux : List Char → List Char → List (List Char)
  | [], acc => if acc = [] then [] else [acc.reverse]
  | c :: cs, acc =>
    if isWordChar c then tokenizeAux cs (c :: acc)
    else if acc = [] then tokenizeAux cs []
    else acc.reverse :: tokenizeAux cs []

/-- The matches of the regex `\b[a-z]{4,}\b` with the `g` flag: a maximal run
    of word characters is matched exactly when it consists of lowercase letters
    only and has length at least 4 (a shorter candidate inside a run never ends
    on a word boundary). -/
def matchWords (cs : List Char) : List (List Char) :=
  (tokenizeAux cs []).filter (fun w => 4 ≤ w.length ∧ w.all (fun c => 'a' ≤ c ∧ c ≤ 'z'))

/-- The `stopWords` list of `extractRelevantKeywords`, verbatim. -/
def stopWords : List (List Char) :=
  ["a","an","yang","dan","di","dari","untuk","dengan","pada","adalah","merupakan",
   "memiliki","dapat","akan","oleh","sebagai","dalam","ini","tersebut","karena",
   "seperti","yaitu","atau","jika","namun","tetapi","melainkan","selain","itu",
   "juga","sudah","belum","akan","telah","sedang","masih","lagi","antara","kepada",
   "terhadap","tentang","mengenai","mengapa","bagaimana","berapa","kapan","dimana",
   "siapa","apa"].map String.data

/-- Insertion-order deduplication, modelling the JavaScript spread of a `Set`
    built from the list (`[...new Set(filtered)]`). -/
def insertionDedup (l : List (List Char)) : List (List Char) :=
  l.foldl (fun acc w => if w ∈ acc then acc else acc ++ [w]) []

/-- `extractRelevantKeywords` from `generateFallbackQuestions`: lowercase the
    material, match `\b[a-z]{4,}\b`, drop stop words, deduplicate in first-seen
    order, keep at most 8. -/
def extractRelevantKeywords (text : List Char) : List (List Char) :=
  let words := matchWords (toLowerL text)
  let filtered := words.filter (fun w => ¬ stopWords.contains w)
  (insertionDedup filtered).take 8

/-- Sentence separators of the split regex `[.!?]+`. -/
def isSentenceSep (c : Char) : Bool := c = '.' ∨ c = '!' ∨ c = '?'

/-- Model of `text.split(/[.!?]+/)`: each maximal run of separators ends the
    current field (`acc`, reversed) and starts a new one. -/
def splitSentencesAux : List Char → List Char → List (List Char)
  | [], acc => [acc.reverse]
  | c :: cs, acc =>
    if isSentenceSep c then
      acc.reverse :: splitSentencesAux (cs.dropWhile isSentenceSep) []
    else splitSentencesAux cs (c :: acc)
termination_by l _ => l.length
decreasing_by
  · have hle := (List.dropWhile_sublist (l := cs) isSentenceSep).length_le
    simp only [List.length_cons]
    omega
  · simp

/-- `getMainConcept` from `generateFallbackQuestions`: the first qualifying
    word of the first sentence, defaulting to the placeholder. -/
def getMainConcept (text : List Char) : List Char :=
  match splitSentencesAux text [] with
  | [] => "konsep".data
  | first :: _ => (matchWords (toLowerL (trimL first))).headD "konsep".data

/-- One generated question: `options`/`correctAnswer`/`explanation` are absent
    in some templates. -/
structure Question where
  question : List Char
  options : Option (List (List Char))
  correctAnswer : Option (List Char)
  explanation : Option (List Char)
  deriving DecidableEq, Repr

/-- The `switch (questionType)` body of the generation loop in
    `generateFallbackQuestions`: one hand-written template per supported type;
    any other type pushes nothing. -/
def mkFallbackQuestion (qt keyword : List Char) : Option Question :=
  if qt = "multiple-choice".data then
    some
      { question := "Berdasarkan materi yang diberikan, manakah pernyataan yang paling tepat mengenai ".data ++ keyword ++ "?".data
        options := some
          [keyword ++ " merupakan konsep penting dalam materi pembelajaran ini".data,
           keyword ++ " tidak memiliki hubungan dengan topik yang dibahas".data,
           keyword ++ " hanya berlaku untuk kondisi tertentu saja".data,
           keyword ++ " dapat diabaikan dalam pemahaman materi".data]
        correctAnswer := some (keyword ++ " merupakan konsep penting dalam materi pembelajaran ini".data)
        explanation := some ("Berdasarkan materi pembelajaran yang diberikan, ".data ++ keyword ++ " adalah konsep yang relevan dan penting untuk dipahami.".data) }
  else if qt = "fill-blank".data then
    some
      { question := "Dalam konteks materi ini, ".data ++ keyword ++ " berperan penting sebagai ___ untuk mencapai pemahaman yang lebih baik.".data
        options := none
        correctAnswer := some "kunci konsep".data
        explanation := some (keyword ++ " merupakan kunci konsep yang membantu dalam memahami keseluruhan materi pembelajaran.".data) }
  else if qt = "true-false".data then
    some
      { question := "Berdasarkan materi pembelajaran, ".data ++ keyword ++ " merupakan elemen penting yang perlu dipahami.".data
        options := none
        correctAnswer := some "benar".data
        explanation := some ("Pernyataan ini benar karena ".data ++ keyword ++ " secara eksplisit atau implisit dibahas dalam materi pembelajaran sebagai konsep penting.".data) }
  else if qt = "essay".data then
    some
      { question := "Jelaskan signifikansi ".data ++ keyword ++ " dalam konteks materi pembelajaran ini! Analisis mengapa konsep ini penting dan berikan contoh aplikasi nyata.".data
        options := none
        correctAnswer := none
        explanation := some ("Jawaban esai yang baik harus menjelaskan definisi ".data ++ keyword ++ ", pentingnya dalam konteks materi, dan memberikan contoh konkret yang relevan.".data) }
  else none

/-- The question-building loop of `generateFallbackQuestions`: for each
    `i < questionCount` pick `keywords[i] || mainConcept` (keyword matches are
    nonempty strings, so the JavaScript truthiness test is an out-of-range
    test) and push the per-type template question. -/
def generateFallbackQuestions (material qt : List Char) (questionCount : Nat) :
    List Question :=
  let keywords := extractRelevantKeywords material
  let mainConcept := getMainConcept material
  (List.range questionCount).filterMap
    (fun i => mkFallbackQuestion qt (keywords.getD i mainConcept))

/-! ## generate-questions route: POST handler -/

/-- Which provider credentials are configured in the environment. -/
structure GenEnv where
  openrouterKey : Bool
  geminiKey : Bool
  huggingfaceKey : Bool

/-- Outcome of one outbound provider call: the extracted text field of a
    success body, or any thrown exception (network failure, non-ok status,
    provider-reported error, unexpected body shape). -/
inductive GenOutcome where
  | ok (text : List Char)
  | fail

/-- The providers of the cascade, in the code's priority order. -/
inductive Provider where
  | openrouter
  | gemini
  | fallbackTemplate
  deriving DecidableEq, Repr

/-- Which error branch of the generation handler produced a response. -/
inductive GenErrKind where
  | noApiKey
  | materialInvalid
  | typeInvalid
  | countInvalid
  | unexpected
  deriving DecidableEq, Repr

/-- Result of the generation POST handler. -/
inductive GenResult where
  | error (status : Nat) (kind : GenErrKind)
  | aiSuccess (provider : Provider) (data : Json)
  | fallbackSuccess (questions : List Question)

/-- HTTP status of a generation result (successes are 200). -/
def statusOf : GenResult → Nat
  | .error s _ => s
  | .aiSuccess _ _ => 200
  | .fallbackSuccess _ => 200

/-- The `!material || material.trim().length < 50` validation test. -/
def materialBad (b : GenBody) : Bool :=
  match b.material with
  | none => true
  | some m => (trimL m).length < 50

/-- The accepted question types of the validation check. -/
def validQuestionTypes : List (List Char) :=
  ["multiple-choice".data, "fill-blank".data, "true-false".data, "essay".data]

/-- The `!questionType || !['...'].includes(questionType)` validation test. -/
def typeBad (b : GenBody) : Bool :=
  match b.questionType with
  | none => true
  | some t => ¬ validQuestionTypes.contains t

/-- The `!questionCount || questionCount < 1 || questionCount > 10` validation
    test (`0` is falsy, which the `< 1` disjunct subsumes). -/
def countBad (b : GenBody) : Bool :=
  match b.questionCount with
  | none => true
  | some n => n = 0 ∨ n < 1 ∨ n > 10

/-- `anyKey` is the `!OPENROUTER_API_KEY && !GOOGLE_GEMINI_API_KEY &&
    !HUGGINGFACE_API_KEY` guard, negated. -/
def anyKey (env : GenEnv) : Bool :=
  env.openrouterKey || env.geminiKey || env.huggingfaceKey

/-- The fallback response of the handler for a validated body. -/
def fallbackOf (b : GenBody) : GenResult :=
  GenResult.fallbackSuccess
    (generateFallbackQuestions (b.material.getD []) (b.questionType.getD [])
      ((b.questionCount.getD 0).toNat))

/-- The Gemini arm of the cascade (reached only from a failed OpenRouter
    attempt): when `genAI` is non-null (the Gemini key was configured at module
    load), call Gemini and parse; any failure falls back to the template
    generator; without the key, go to the template generator directly. -/
def geminiBranch (env : GenEnv) (b : GenBody) (gOut : GenOutcome) :
    GenResult × List Provider :=
  if env.geminiKey then
    match gOut with
    | .ok text =>
      match parseAIResponse text with
      | .ok parsed => (.aiSuccess .gemini parsed, [.gemini])
      | .error _ => (fallbackOf b, [.gemini, .fallbackTemplate])
    | .fail => (fallbackOf b, [.gemini, .fallbackTemplate])
  else (fallbackOf b, [.fallbackTemplate])

/-- The POST handler of `generate-questions/route.ts`, returning the response
    together with the list of providers actually attempted, in order. The
    credential guard (500) runs first; a body that fails to parse as JSON
    escapes to the outer catch (500); the three validation checks (400) run
    before any provider call; then: with an OpenRouter key, try OpenRouter and
    on any failure (including an unparseable reply) advance to the Gemini arm;
    without an OpenRouter key, use the fallback template directly — Gemini is
    never reached in that case. -/
def generatePOST (env : GenEnv) (body? : Option GenBody) (oOut gOut : GenOutcome) :
    GenResult × List Provider :=
  if ¬ (anyKey env = true) then (.error 500 .noApiKey, [])
  else
    match body? with
    | none => (.error 500 .unexpected, [])
    | some b =>
      if materialBad b then (.error 400 .materialInvalid, [])
      else if typeBad b then (.error 400 .typeInvalid, [])
      else if countBad b then (.error 400 .countInvalid, [])
      else
        if env.openrouterKey then
          match oOut with
          | .ok text =>
            match parseAIResponse text with
            | .ok parsed => (.aiSuccess .openrouter parsed, [.openrouter])
            | .error _ =>
              let g := geminiBranch env b gOut
              (g.1, .openrouter :: g.2)
          | .fail =>
            let g := geminiBranch env b gOut
            (g.1, .openrouter :: g.2)
        else (fallbackOf b, [.fallbackTemplate])

/-- Whether the OpenRouter attempt ends in an exception: a thrown call, or a
    reply the parser rejects. -/
def orFailed : GenOutcome → Bool
  | .fail => true
  | .ok t =>
    match parseAIResponse t with
    | .error _ => true
    | .ok _ => false

/-- A sample learning material, 93 characters, used as a concrete instance in
    witnesses and counterexamples. -/
def sampleMaterial : List Char :=
  "Fotosintesis adalah proses pembuatan makanan oleh tumbuhan hijau menggunakan cahaya matahari.".data

/-- First-seen-order deduplication stated recursively, as the specification
    describes it: keep each element's first occurrence and delete the later
    ones. The code's `Set`-spread is proved equal to this. -/
def firstSeenDedup : List (List Char) → List (List Char)
  | [] => []
  | a :: l => a :: firstSeenDedup (l.filter (fun w => w ≠ a))
termination_by l => l.length
decreasing_by
  simp only [List.length_cons]
  exact Nat.lt_succ_of_le (List.length_filter_le _ _)

/-! ## Auxiliary theorems and claims -/

/-- Auxiliary: a list whose head satisfies the predicate has first match index 0. -/
theorem findIdx?_head (l : List Char) (p : Char → Bool) (a : Char)
    (h : l.head? = some a) (hp : p a = true) : l.findIdx? p = some 0 := by
  cases l with
  | nil => simp at h
  | cons b t =>
    have hb : b = a := by simpa using h
    subst hb
    simp [List.findIdx?_cons, hp]

/-- Auxiliary: when the leading prose contains no opening brace and the trailing
    prose contains no closing brace, the greedy first-brace to last-brace span
    of `p1 ++ s ++ p2` is exactly `s` (for `s` delimited by braces). -/
theorem greedySpan_wrap (p1 s p2 : List Char)
    (h1 : ∀ c ∈ p1, c ≠ '{') (h2 : ∀ c ∈ p2, c ≠ '}')
    (hh : s.head? = some '{') (hl : s.getLast? = some '}') :
    greedySpan (p1 ++ s ++ p2) = some s := by
  have hslen : 2 ≤ s.length := by
    cases s with
    | nil => simp at hh
    | cons a t =>
      cases t with
      | nil =>
        have ha : a = '{' := by simpa using hh
        have hb : a = '}' := by simpa using hl
        rw [ha] at hb
        simp at hb
      | cons b u => simp
  have hfi : (p1 ++ s ++ p2).findIdx? (fun c => c = '{') = some p1.length := by
    rw [List.append_assoc, List.findIdx?_append]
    have hp1 : p1.findIdx? (fun c => c = '{') = none := by
      rw [List.findIdx?_eq_none_iff]
      intro c hc
      simp [h1 c hc]
    have hs2 : (s ++ p2).findIdx? (fun c => c = '{') = some 0 := by
      apply findIdx?_head _ _ '{'
      · cases s with
        | nil => simp at hh
        | cons a t => simpa using hh
      · simp
    rw [hp1, hs2]
    simp
  have hrev : (p1 ++ s ++ p2).reverse.findIdx? (fun c => c = '}') = some p2.length := by
    rw [List.append_assoc, List.reverse_append, List.reverse_append, List.findIdx?_append,
      List.findIdx?_append]
    have hp2 : p2.reverse.findIdx? (fun c => c = '}') = none := by
      rw [List.findIdx?_eq_none_iff]
      intro c hc
      simp [h2 c (List.mem_reverse.mp hc)]
    have hsr : s.reverse.findIdx? (fun c => c = '}') = some 0 := by
      apply findIdx?_head _ _ '}'
      · rw [List.head?_reverse]; exact hl
      · simp
    rw [hp2, hsr]
    simp
  have hlast : lastIndexOf '}' (p1 ++ s ++ p2) = some (p1.length + s.length - 1) := by
    simp only [lastIndexOf]
    rw [hrev]
    simp only [Option.map_some', List.length_append]
    congr 1
    omega
  simp only [greedySpan]
  rw [hfi, hlast]
  have hlt : p1.length < p1.length + s.length - 1 := by omega
  simp only [if_pos hlt]
  congr 1
  have harith : p1.length + s.length - 1 - p1.length + 1 = s.length := by omega
  rw [harith, List.append_assoc, List.drop_left]
  exact List.take_left ..

/-- C5 counterexample: the input below contains a balanced span holding a
    `questions` array (it sits between `pre` and `post`), yet the parser fails,
    because the greedy first-brace to last-brace span swallows the stray closing
    brace of the trailing prose and neither parse attempt succeeds. -/
theorem C5_counterexample :
    parseAIResponse "j\x7b\"questions\":[]\x7dk\x7d".data = Except.error () ∧
    jsonParse "\x7b\"questions\":[]\x7d".data =
      some (Json.obj [("questions".data, Json.arr [])]) ∧
    (∃ pre post, pre ++ "\x7b\"questions\":[]\x7d".data ++ post =
      "j\x7b\"questions\":[]\x7dk\x7d".data) :=
  ⟨rfl, rfl, ⟨"j".data, "k\x7d".data, rfl⟩⟩

/-- C5 amended: the parser recovers the encoded object from prose-wrapped JSON
    provided the whole-string parse fails, the leading prose contains no opening
    brace and the trailing prose no closing brace (not merely that some balanced
    span exists); and it fails exactly when both the whole-string parse and the
    greedy-span parse fail. -/
theorem C5_amended :
    (∀ (p1 s p2 : List Char) (j : Json),
      jsonParse s = some j →
      s.head? = some '{' → s.getLast? = some '}' →
      (∀ c ∈ p1, c ≠ '{') → (∀ c ∈ p2, c ≠ '}') →
      jsonParse (p1 ++ s ++ p2) = none →
      parseAIResponse (p1 ++ s ++ p2) = Except.ok j) ∧
    (∀ r : List Char,
      parseAIResponse r = Except.error () ↔
        (jsonParse r = none ∧ ∀ sp, greedySpan r = some sp → jsonParse sp = none)) := by
  constructor
  · intro p1 s p2 j hj hh hl h1 h2 hwhole
    simp only [parseAIResponse, hwhole, greedySpan_wrap p1 s p2 h1 h2 hh hl, hj]
  · intro r
    cases hw : jsonParse r with
    | some j => simp [parseAIResponse, hw]
    | none =>
      cases hg : greedySpan r with
      | none => simp [parseAIResponse, hw, hg]
      | some sp =>
        cases hp : jsonParse sp with
        | some j => simp [parseAIResponse, hw, hg, hp]
        | none => simp [parseAIResponse, hw, hg, hp]

/-- C5 amended witness: prose-wrapped `questions` JSON is recovered unchanged. -/
theorem C5_amended_witness :
    parseAIResponse ("Sure: ".data ++ "\x7b\"questions\":[]\x7d".data ++ " done".data) =
      Except.ok (Json.obj [("questions".data, Json.arr [])]) :=
  C5_amended.1 "Sure: ".data "\x7b\"questions\":[]\x7d".data " done".data
    (Json.obj [("questions".data, Json.arr [])]) rfl rfl rfl (by decide) (by decide) rfl

/-! ## Claims about the extract-text route -/

/-- C1 counterexample: the claim says a `.pdf` file declared as `text/plain` is
    rejected with 400, but `isValidFileType` checks the two memberships
    independently, so such a file is accepted and extraction proceeds to a
    200 success. -/
theorem C1_counterexample :
    isValidFileType "doc.pdf".data "text/plain".data = true ∧
    extractPOST (some ⟨"doc.pdf".data, "text/plain".data, 100, []⟩)
      (Except.ok "this is long enough text".data) (Except.error ()) =
      ExtractResult.ok "this is long enough text".data "doc.pdf".data "PDF".data := by
  exact ⟨rfl, rfl⟩

/-- C1 amended: a file that passes the size check is rejected with the
    unsupported-type 400 exactly when its extension is not in
    {.pdf, .docx, .txt} or its MIME type is not one of the three accepted
    values; the two checks are independent (no cross-match), so a `.exe` file
    declared as `application/pdf` is still rejected with 400. -/
theorem C1_amended :
    (∀ (f : UploadedFile) (pdfRes docxRes : Except Unit (List Char)),
      f.size ≤ 10 * 1024 * 1024 →
      (extractPOST (some f) pdfRes docxRes = ExtractResult.err 400 ExtractErrKind.badType ↔
        ¬ (extOf f.name ∈ validExtensions ∧ f.mimeType ∈ validMimeTypes))) ∧
    extractPOST (some ⟨"virus.exe".data, "application/pdf".data, 4, []⟩)
      (Except.ok "irrelevant pdf text".data) (Except.ok "irrelevant docx text".data) =
      ExtractResult.err 400 ExtractErrKind.badType := by
  constructor
  · intro f pdfRes docxRes hsize
    have h1 : ¬ (f.size > 10 * 1024 * 1024) := by omega
    simp only [extractPOST]
    rw [if_neg h1]
    by_cases hv : isValidFileType f.name f.mimeType = true
    · rw [if_neg (not_not_intro hv)]
      have hmem : extOf f.name ∈ validExtensions ∧ f.mimeType ∈ validMimeTypes := by
        have h2 := hv
        simp [isValidFileType] at h2
        exact h2
      constructor
      · intro h
        exfalso
        cases hd : dispatchExtract f pdfRes docxRes with
        | error e => rw [hd] at h; exact absurd h (by simp)
        | ok text =>
          rw [hd] at h
          by_cases he : (text = [] ∨ (trimL text).length < 10) <;> simp [he] at h
      · intro hc
        exact absurd hmem hc
    · rw [if_pos hv]
      constructor
      · intro _
        intro hmem
        apply hv
        simp [isValidFileType]
        exact hmem
      · intro _
        rfl
  · exact rfl

/-- C1 amended witness at a concrete accepted-size file with a bad extension. -/
theorem C1_amended_witness :
    extractPOST (some ⟨"virus.exe".data, "application/pdf".data, 4, []⟩)
      (Except.ok "irrelevant pdf text".data) (Except.ok "irrelevant docx text".data) =
      ExtractResult.err 400 ExtractErrKind.badType ↔
      ¬ (extOf "virus.exe".data ∈ validExtensions ∧
         "application/pdf".data ∈ validMimeTypes) :=
  C1_amended.1 ⟨"virus.exe".data, "application/pdf".data, 4, []⟩
    (Except.ok "irrelevant pdf text".data) (Except.ok "irrelevant docx text".data)
    (by decide)

/-- C7: for every upload that passes the presence, size and type checks, if the
    dispatched extraction succeeds with text whose trimmed length is below 10,
    the handler answers 400 with the empty-extraction error. -/
theorem C7_empty_extraction (f : UploadedFile) (pdfRes docxRes : Except Unit (List Char))
    (text : List Char)
    (hsize : f.size ≤ 10 * 1024 * 1024)
    (htype : isValidFileType f.name f.mimeType = true)
    (hdisp : dispatchExtract f pdfRes docxRes = Except.ok text)
    (hshort : (trimL text).length < 10) :
    extractPOST (some f) pdfRes docxRes = ExtractResult.err 400 ExtractErrKind.emptyExtraction := by
  have h1 : ¬ (f.size > 10 * 1024 * 1024) := by omega
  simp only [extractPOST]
  rw [if_neg h1, if_neg (not_not_intro htype), hdisp]
  simp [hshort]

/-- C7 witness: a `.txt` file containing "Hi" (2 bytes) is accepted by the
    front checks, extracts to "Hi", and yields the 400 empty-extraction error. -/
theorem C7_empty_extraction_witness :
    extractPOST (some ⟨"note.txt".data, "text/plain".data, 2, "Hi".data⟩)
      (Except.error ()) (Except.error ()) =
      ExtractResult.err 400 ExtractErrKind.emptyExtraction :=
  C7_empty_extraction ⟨"note.txt".data, "text/plain".data, 2, "Hi".data⟩
    (Except.error ()) (Except.error ()) "Hi".data
    (by decide) (by decide) rfl (by decide)

/-- C8: every file larger than 10 MiB is rejected with 400, whatever its name,
    MIME type, content, or the extraction-library outcomes. -/
theorem C8_size_limit (f : UploadedFile) (pdfRes docxRes : Except Unit (List Char))
    (hsize : f.size > 10 * 1024 * 1024) :
    extractPOST (some f) pdfRes docxRes = ExtractResult.err 400 ExtractErrKind.tooLarge := by
  simp only [extractPOST]
  rw [if_pos hsize]

/-- C8 witness at a concrete oversized file. -/
theorem C8_size_limit_witness :
    extractPOST (some ⟨"huge.exe".data, "anything".data, 10 * 1024 * 1024 + 1, []⟩)
      (Except.error ()) (Except.error ()) =
      ExtractResult.err 400 ExtractErrKind.tooLarge :=
  C8_size_limit ⟨"huge.exe".data, "anything".data, 10 * 1024 * 1024 + 1, []⟩
    (Except.error ()) (Except.error ()) (by decide)


/-- Auxiliary: every result of the Gemini arm carries status 200, because the
    fallback template itself never fails. -/
theorem statusOf_geminiBranch (env : GenEnv) (b : GenBody) (gOut : GenOutcome) :
    statusOf (geminiBranch env b gOut).1 = 200 := by
  unfold geminiBranch
  by_cases hg : env.geminiKey = true
  · cases gOut with
    | ok t => cases hp : parseAIResponse t <;> simp [hg, hp, statusOf, fallbackOf]
    | fail => simp [hg, statusOf, fallbackOf]
  · simp [hg, statusOf, fallbackOf]

/-- Auxiliary: once a body passes all three validation checks and a credential
    exists, every path through the cascade answers 200. -/
theorem statusOf_validated (env : GenEnv) (b : GenBody) (oOut gOut : GenOutcome)
    (hk : anyKey env = true) (hm : materialBad b = false) (ht : typeBad b = false)
    (hc : countBad b = false) :
    statusOf (generatePOST env (some b) oOut gOut).1 = 200 := by
  by_cases ho : env.openrouterKey = true
  · cases oOut with
    | ok text =>
      cases hp : parseAIResponse text with
      | ok parsed => simp [generatePOST, hk, hm, ht, hc, ho, hp, statusOf]
      | error e => simp [generatePOST, hk, hm, ht, hc, ho, hp, statusOf_geminiBranch]
    | fail => simp [generatePOST, hk, hm, ht, hc, ho, statusOf_geminiBranch]
  · simp [generatePOST, hk, hm, ht, hc, ho, statusOf, fallbackOf]

/-- C2 counterexample: with every credential configured, a valid body and both
    network providers failing, the handler answers 200 from the fallback
    template — not the 500 the claim requires for "all providers fail". -/
theorem C2_counterexample :
    statusOf (generatePOST ⟨true, true, true⟩
      (some ⟨some sampleMaterial, some "multiple-choice".data, some 4, none⟩)
      GenOutcome.fail GenOutcome.fail).1 = 200 ∧
    (generatePOST ⟨true, true, true⟩
      (some ⟨some sampleMaterial, some "multiple-choice".data, some 4, none⟩)
      GenOutcome.fail GenOutcome.fail).2 =
      [Provider.openrouter, Provider.gemini, Provider.fallbackTemplate] :=
  ⟨rfl, rfl⟩

/-- C2 amended: the handler returns 500 exactly when no provider credential is
    configured, or the request body fails to parse (outer catch); failure of
    all network providers ends in the fallback template's 200 instead. -/
theorem C2_amended :
    ∀ (env : GenEnv) (body? : Option GenBody) (oOut gOut : GenOutcome),
      statusOf (generatePOST env body? oOut gOut).1 = 500 ↔
        (anyKey env = false ∨ body? = none) := by
  intro env body? oOut gOut
  by_cases hk : anyKey env = true
  · have hkf : ¬ (anyKey env = false) := by simp [hk]
    cases body? with
    | none => simp [generatePOST, hk, statusOf]
    | some b =>
      by_cases hm : materialBad b = true
      · simp [generatePOST, hk, hm, statusOf, hkf]
      · by_cases ht : typeBad b = true
        · simp [generatePOST, hk, hm, ht, statusOf, hkf]
        · by_cases hc : countBad b = true
          · simp [generatePOST, hk, hm, ht, hc, statusOf, hkf]
          · have h200 := statusOf_validated env b oOut gOut hk
              (by simpa using hm) (by simpa using ht) (by simpa using hc)
            simp [h200, hkf]
  · have hkf : anyKey env = false := by simpa using hk
    simp [generatePOST, hk, hkf, statusOf]

/-- C3 counterexample: with the Gemini credential configured but no OpenRouter
    key, a valid request goes straight to the fallback template — Gemini is
    never attempted, contradicting the claimed unconditional priority order. -/
theorem C3_counterexample :
    (⟨false, true, false⟩ : GenEnv).geminiKey = true ∧
    (generatePOST ⟨false, true, false⟩
      (some ⟨some sampleMaterial, some "true-false".data, some 2, none⟩)
      GenOutcome.fail GenOutcome.fail).2 = [Provider.fallbackTemplate] :=
  ⟨rfl, rfl⟩

/-- C3 amended: when the OpenRouter key is configured, its attempt fails (by
    exception or unparseable reply), and the Gemini credential is configured,
    Gemini is attempted immediately after OpenRouter and before any fallback;
    without an OpenRouter key the handler skips directly to the template. -/
theorem C3_amended (env : GenEnv) (b : GenBody) (oOut gOut : GenOutcome)
    (hm : materialBad b = false) (ht : typeBad b = false) (hc : countBad b = false)
    (ho : env.openrouterKey = true) (hg : env.geminiKey = true)
    (hfail : orFailed oOut = true) :
    ∃ rest, (generatePOST env (some b) oOut gOut).2 =
      Provider.openrouter :: Provider.gemini :: rest := by
  have hk : anyKey env = true := by simp [anyKey, ho]
  cases oOut with
  | ok text =>
    cases hp : parseAIResponse text with
    | ok parsed => simp [orFailed, hp] at hfail
    | error e =>
      cases gOut with
      | ok gt =>
        cases hgp : parseAIResponse gt with
        | ok p2 =>
          exact ⟨[], by simp [generatePOST, geminiBranch, hk, hm, ht, hc, ho, hp, hg, hgp]⟩
        | error e2 =>
          exact ⟨[Provider.fallbackTemplate],
            by simp [generatePOST, geminiBranch, hk, hm, ht, hc, ho, hp, hg, hgp]⟩
      | fail =>
        exact ⟨[Provider.fallbackTemplate],
          by simp [generatePOST, geminiBranch, hk, hm, ht, hc, ho, hp, hg]⟩
  | fail =>
    cases gOut with
    | ok gt =>
      cases hgp : parseAIResponse gt with
      | ok p2 =>
        exact ⟨[], by simp [generatePOST, geminiBranch, hk, hm, ht, hc, ho, hg, hgp]⟩
      | error e2 =>
        exact ⟨[Provider.fallbackTemplate],
          by simp [generatePOST, geminiBranch, hk, hm, ht, hc, ho, hg, hgp]⟩
    | fail =>
      exact ⟨[Provider.fallbackTemplate],
        by simp [generatePOST, geminiBranch, hk, hm, ht, hc, ho, hg]⟩

/-- C3 amended witness at a concrete failing OpenRouter attempt. -/
theorem C3_amended_witness :
    ∃ rest, (generatePOST ⟨true, true, false⟩
      (some ⟨some sampleMaterial, some "true-false".data, some 2, none⟩)
      GenOutcome.fail GenOutcome.fail).2 =
        Provider.openrouter :: Provider.gemini :: rest :=
  C3_amended ⟨true, true, false⟩
    ⟨some sampleMaterial, some "true-false".data, some 2, none⟩
    GenOutcome.fail GenOutcome.fail
    (by decide) (by decide) (by decide) rfl rfl rfl

/-- C6 counterexample: with no credential configured, a too-short material
    yields 500 (the credential guard runs first), not the claimed 400. -/
theorem C6_counterexample :
    materialBad ⟨some "terlalu pendek".data, some "essay".data, some 3, none⟩ = true ∧
    statusOf (generatePOST ⟨false, false, false⟩
      (some ⟨some "terlalu pendek".data, some "essay".data, some 3, none⟩)
      GenOutcome.fail GenOutcome.fail).1 = 500 :=
  ⟨rfl, rfl⟩

/-- C6 amended: provided at least one provider credential is configured, every
    validation failure (material, type or count) is answered with 400 before
    any provider is attempted. -/
theorem C6_amended (env : GenEnv) (b : GenBody) (oOut gOut : GenOutcome)
    (hk : anyKey env = true)
    (hbad : materialBad b = true ∨ typeBad b = true ∨ countBad b = true) :
    statusOf (generatePOST env (some b) oOut gOut).1 = 400 ∧
    (generatePOST env (some b) oOut gOut).2 = [] := by
  by_cases hm : materialBad b = true
  · constructor <;> simp [generatePOST, hk, hm, statusOf]
  · by_cases ht : typeBad b = true
    · constructor <;> simp [generatePOST, hk, hm, ht, statusOf]
    · by_cases hc : countBad b = true
      · constructor <;> simp [generatePOST, hk, hm, ht, hc, statusOf]
      · rcases hbad with h | h | h
        · exact absurd h hm
        · exact absurd h ht
        · exact absurd h hc

/-- C6 amended witness: a credentialed environment and a short material. -/
theorem C6_amended_witness :
    statusOf (generatePOST ⟨true, false, false⟩
      (some ⟨some "terlalu pendek juga".data, some "essay".data, some 3, none⟩)
      GenOutcome.fail GenOutcome.fail).1 = 400 ∧
    (generatePOST ⟨true, false, false⟩
      (some ⟨some "terlalu pendek juga".data, some "essay".data, some 3, none⟩)
      GenOutcome.fail GenOutcome.fail).2 = [] :=
  C6_amended ⟨true, false, false⟩
    ⟨some "terlalu pendek juga".data, some "essay".data, some 3, none⟩
    GenOutcome.fail GenOutcome.fail rfl (Or.inl (by decide))

/-- C10: difficulty is never validated — any difficulty value passes the checks
    (the response is never a 400 once material, type and count are valid), the
    provided value is embedded verbatim in the prompt, and `medium` is
    substituted exactly when the field is absent. -/
theorem C10_difficulty_unvalidated (env : GenEnv) (b : GenBody) (oOut gOut : GenOutcome)
    (hm : materialBad b = false) (ht : typeBad b = false) (hc : countBad b = false) :
    statusOf (generatePOST env (some b) oOut gOut).1 ≠ 400 ∧
    (∀ d, b.difficulty = some d →
      ∃ pre post, createPrompt b = pre ++ d ++ post) ∧
    (b.difficulty = none →
      ∃ pre post, createPrompt b = pre ++ "medium".data ++ post) := by
  refine ⟨?_, ?_, ?_⟩
  · by_cases hk : anyKey env = true
    · have h200 := statusOf_validated env b oOut gOut hk hm ht hc
      omega
    · have hkp : ¬ (anyKey env = true) := hk
      simp [generatePOST, hkp, statusOf]
  · intro d hd
    refine ⟨"Berdasarkan materi pembelajaran berikut, buat ".data ++
      (match b.questionCount with
        | some n => (toString n).data
        | none => "undefined".data) ++
      " soal ".data ++ getQuestionTypeLabel (b.questionType.getD "undefined".data) ++
      " dengan tingkat kesulitan ".data,
      ".\n\n".data ++ "Materi:\n".data ++ b.material.getD "undefined".data ++
      "\n\n".data ++
      "Buat soal dalam format JSON yang valid dengan struktur berikut:\n".data ++
      schemaFor (b.questionType.getD "undefined".data) ++
      "\n\nPastikan output adalah JSON yang valid dan bisa di-parse. Jangan tambahkan teks lain di luar JSON.".data, ?_⟩
    simp [createPrompt, hd, List.append_assoc]
  · intro hd
    refine ⟨"Berdasarkan materi pembelajaran berikut, buat ".data ++
      (match b.questionCount with
        | some n => (toString n).data
        | none => "undefined".data) ++
      " soal ".data ++ getQuestionTypeLabel (b.questionType.getD "undefined".data) ++
      " dengan tingkat kesulitan ".data,
      ".\n\n".data ++ "Materi:\n".data ++ b.material.getD "undefined".data ++
      "\n\n".data ++
      "Buat soal dalam format JSON yang valid dengan struktur berikut:\n".data ++
      schemaFor (b.questionType.getD "undefined".data) ++
      "\n\nPastikan output adalah JSON yang valid dan bisa di-parse. Jangan tambahkan teks lain di luar JSON.".data, ?_⟩
    simp [createPrompt, hd, List.append_assoc]

/-- C10 witness: an out-of-vocabulary difficulty value on an otherwise valid
    body is not rejected and appears verbatim in the prompt. -/
theorem C10_witness :
    statusOf (generatePOST ⟨true, false, false⟩
      (some ⟨some sampleMaterial, some "fill-blank".data, some 5, some "sangat-aneh".data⟩)
      GenOutcome.fail GenOutcome.fail).1 ≠ 400 ∧
    (∀ d, (⟨some sampleMaterial, some "fill-blank".data, some 5, some "sangat-aneh".data⟩ : GenBody).difficulty = some d →
      ∃ pre post, createPrompt ⟨some sampleMaterial, some "fill-blank".data, some 5, some "sangat-aneh".data⟩ = pre ++ d ++ post) ∧
    ((⟨some sampleMaterial, some "fill-blank".data, some 5, some "sangat-aneh".data⟩ : GenBody).difficulty = none →
      ∃ pre post, createPrompt ⟨some sampleMaterial, some "fill-blank".data, some 5, some "sangat-aneh".data⟩ = pre ++ "medium".data ++ post) :=
  C10_difficulty_unvalidated ⟨true, false, false⟩
    ⟨some sampleMaterial, some "fill-blank".data, some 5, some "sangat-aneh".data⟩
    GenOutcome.fail GenOutcome.fail (by decide) (by decide) (by decide)

/-- Auxiliary: when a function is some-valued on every element of a list,
    `filterMap` keeps the length and acts pointwise. -/
theorem filterMap_all_some (f : Nat → Option Question) :
    ∀ (l : List Nat), (∀ i ∈ l, (f i).isSome) →
      ((l.filterMap f).length = l.length ∧
        ∀ k, (l.filterMap f).get? k = (l.get? k).bind f) := by
  intro l
  induction l with
  | nil =>
    intro h
    refine ⟨rfl, ?_⟩
    intro k
    simp [List.get?]
  | cons a t ih =>
    intro h
    have ha : (f a).isSome := h a (by simp)
    obtain ⟨q, hq⟩ := Option.isSome_iff_exists.mp ha
    have ht : ∀ i ∈ t, (f i).isSome := fun i hi => h i (by simp [hi])
    obtain ⟨ihlen, ihget⟩ := ih ht
    constructor
    · simp only [List.filterMap_cons, hq, List.length_cons, ihlen]
    · intro k
      cases k with
      | zero => simp [List.filterMap_cons, hq, List.get?]
      | succ k => simpa [List.filterMap_cons, hq, List.get?] using ihget k

/-- Auxiliary: indexing `List.range`. -/
theorem get?_range_of_lt (n i : Nat) (hi : i < n) : (List.range n).get? i = some i := by
  rw [List.get?_eq_getElem?]
  exact List.getElem?_range hi

/-- C4: for every valid request the fallback generator never fails: it returns
    exactly `questionCount` questions, question `i` built from `keywords[i]`
    when that index exists and from the main concept once keywords run out. -/
theorem C4_fallback (material qt : List Char) (n : Nat)
    (hmat : 50 ≤ (trimL material).length) (hqt : qt ∈ validQuestionTypes)
    (h1 : 1 ≤ n) (h10 : n ≤ 10) :
    (generateFallbackQuestions material qt n).length = n ∧
    ∀ i, i < n → (generateFallbackQuestions material qt n).get? i =
      mkFallbackQuestion qt
        ((extractRelevantKeywords material).getD i (getMainConcept material)) := by
  have hsome : ∀ kw, (mkFallbackQuestion qt kw).isSome := by
    intro kw
    have h4 : qt = "multiple-choice".data ∨ qt = "fill-blank".data ∨
        qt = "true-false".data ∨ qt = "essay".data := by
      simpa [validQuestionTypes] using hqt
    rcases h4 with h | h | h | h <;> subst h <;> rfl
  obtain ⟨hlen, hget⟩ := filterMap_all_some
    (fun i => mkFallbackQuestion qt
      ((extractRelevantKeywords material).getD i (getMainConcept material)))
    (List.range n) (fun i _ => hsome _)
  constructor
  · simpa [generateFallbackQuestions] using hlen
  · intro i hi
    have hg := hget i
    rw [get?_range_of_lt n i hi] at hg
    simpa [generateFallbackQuestions] using hg

/-- C4 witness: three essay questions from the sample material. -/
theorem C4_witness :
    (generateFallbackQuestions sampleMaterial "essay".data 3).length = 3 ∧
    ∀ i, i < 3 → (generateFallbackQuestions sampleMaterial "essay".data 3).get? i =
      mkFallbackQuestion "essay".data
        ((extractRelevantKeywords sampleMaterial).getD i (getMainConcept sampleMaterial)) :=
  C4_fallback sampleMaterial "essay".data 3 (by decide) (by decide)
    (by decide) (by decide)

/-- Auxiliary: the fold that models the `Set` spread, generalised over the
    starting accumulator. -/
theorem insertionDedup_go (l : List (List Char)) :
    ∀ acc, l.foldl (fun acc w => if w ∈ acc then acc else acc ++ [w]) acc =
      acc ++ firstSeenDedup (l.filter (fun w => decide (w ∉ acc))) := by
  induction l with
  | nil => intro acc; simp [firstSeenDedup]
  | cons a t ih =>
    intro acc
    by_cases ha : a ∈ acc
    · simp only [List.foldl_cons, if_pos ha, List.filter_cons]
      rw [ih acc]
      congr 2
      simp [ha]
    · simp only [List.foldl_cons, if_neg ha, List.filter_cons]
      rw [ih (acc ++ [a])]
      have hcond : decide (a ∉ acc) = true := by simp [ha]
      rw [if_pos hcond]
      have hfilter : List.filter (fun w => decide (w ∉ acc ++ [a])) t =
          List.filter (fun w => decide (w ≠ a))
            (List.filter (fun w => decide (w ∉ acc)) t) := by
        rw [List.filter_filter]
        apply List.filter_congr
        intro w _
        by_cases h1 : w ∈ acc <;> by_cases h2 : w = a <;>
          simp [h1, h2, List.mem_append]
      simp [firstSeenDedup, hfilter, List.append_assoc]
      congr 1
      apply List.filter_congr
      intro w _
      exact Bool.and_comm _ _

/-- Auxiliary: the `Set`-spread deduplication keeps first occurrences in order. -/
theorem insertionDedup_eq_firstSeenDedup (l : List (List Char)) :
    insertionDedup l = firstSeenDedup l := by
  have h := insertionDedup_go l []
  simp only [insertionDedup] at h ⊢
  rw [h]
  simp only [List.nil_append]
  congr 1
  apply List.filter_eq_self.mpr
  intro w _
  simp

/-- Auxiliary: the first field produced by the sentence split is the prefix of
    the input before the first separator. -/
theorem splitSentencesAux_head (cs : List Char) :
    ∀ acc, (splitSentencesAux cs acc).head? =
      some (acc.reverse ++ cs.takeWhile (fun c => !(isSentenceSep c))) := by
  induction cs with
  | nil => intro acc; simp [splitSentencesAux]
  | cons c cs ih =>
    intro acc
    by_cases hc : isSentenceSep c = true
    · simp [splitSentencesAux, hc, List.takeWhile_cons]
    · simp [splitSentencesAux, hc, List.takeWhile_cons, ih (c :: acc),
        List.reverse_cons, List.append_assoc]

/-- C9: the keyword list is exactly the pattern-matched lowercase words of
    length at least 4, with stop words removed, deduplicated in first-seen
    order and truncated to 8; the main concept is the first qualifying word of
    the first sentence (the prefix before the first `.`/`!`/`?`), defaulting to
    the placeholder `konsep`. -/
theorem C9_keywords (material : List Char) :
    extractRelevantKeywords material =
      (firstSeenDedup ((matchWords (toLowerL material)).filter
        (fun w => ¬ stopWords.contains w))).take 8 ∧
    getMainConcept material =
      (matchWords (toLowerL (trimL (material.takeWhile
        (fun c => !(isSentenceSep c)))))).headD "konsep".data := by
  constructor
  · simp only [extractRelevantKeywords]
    rw [insertionDedup_eq_firstSeenDedup]
  · have hh := splitSentencesAux_head material []
    unfold getMainConcept
    cases hsp : splitSentencesAux material [] with
    | nil => rw [hsp] at hh; simp at hh
    | cons first rest =>
      rw [hsp] at hh
      simp only [List.head?_cons, Option.some.injEq, List.reverse_nil,
        List.nil_append] at hh
      rw [hh]
